import Mathlib

/-!
Verification of the ssm-ec2 CLI tool (Go) against its natural-language
specification.  The repository contains three near-duplicate program
variants sharing one functional core:

* `V1` — the flag/promptui variant (first half of `main.go`);
* `V2` — the cobra/survey variant (second half of `main.go`);
* `P0` — the huh-based variant (`src/unnamed/part_000`).

The definitions below are shallow embeddings of the Go functions: the
provider's paginated APIs are modelled as a list of pages, Go `nil`
pointers as `Option`, Go maps as association-list / functional lookups
with Go's zero-value-on-missing-key semantics, and the process handoff
as the argument vector handed to `exec.Command`.
-/

/-- An EC2 tag, as in `ec2/types.Tag` (both pointer fields dereferenced
with `aws.ToString`). -/
structure Tag where
  key : String
  value : String
deriving Repr, DecidableEq

/-- The fields of `ec2/types.Instance` that `listInstances` reads.
`privateIpAddress` / `publicIpAddress` are `*string` in the SDK, hence
`Option`. -/
structure EC2ApiInstance where
  instanceId : String
  instanceType : String
  stateName : String
  tags : List Tag
  privateIpAddress : Option String
  publicIpAddress : Option String
deriving Repr, DecidableEq

/-- Embeds `ec2/types.Reservation`, restricted to the field the code reads. -/
structure Reservation where
  instances : List EC2ApiInstance
deriving Repr, DecidableEq

/-- The tool's own compute record (`type Instance struct` in `main.go`,
identical in both variants). -/
structure Instance where
  ID : String
  Name : String
  PrivateIP : String
  PublicIP : String
  State : String
  InstanceType : String
deriving Repr, DecidableEq

/-- The tag scan in `listInstances`: iterate the tags, on the first tag
whose key is `"Name"` take its value and break; the zero value `""`
stands when no such tag exists. -/
def nameFromTags : List Tag → String
  | [] => ""
  | t :: rest => if t.key = "Name" then t.value else nameFromTags rest

/-- Building one `Instance` record from an API instance, exactly the body
of the inner loop of `listInstances` (minus the terminated-state skip). -/
def toInstance (i : EC2ApiInstance) : Instance :=
  { ID := i.instanceId
    Name := nameFromTags i.tags
    PrivateIP := i.privateIpAddress.getD ""
    PublicIP := i.publicIpAddress.getD ""
    State := i.stateName
    InstanceType := i.instanceType }

/-- The double loop of `listInstances` over `result.Reservations`:
skip instances whose state is `types.InstanceStateNameTerminated`
(the string `"terminated"`), keep everything else in order. -/
def processReservations : List Reservation → List Instance
  | [] => []
  | r :: rest =>
      (r.instances.filter (fun i => i.stateName ≠ "terminated")).map toInstance
        ++ processReservations rest

/-- Embeds `listInstances` (both `main.go` variants): it issues a single
`DescribeInstances` call with an empty input and processes only that
response.  The provider's paginated result set is modelled as the list
of pages; a single un-paginated call returns the first page. -/
def listInstances (pages : List (List Reservation)) : List Instance :=
  processReservations (pages.headD [])

/-- Embeds `rds/types.Endpoint`: `Address *string`, `Port *int32`. -/
structure DBEndpoint where
  address : Option String
  port : Option Int
deriving Repr, DecidableEq

/-- The fields of `rds/types.DBInstance` that `listRDSInstances` reads. -/
structure DBInstance where
  dbInstanceIdentifier : String
  engine : String
  dbInstanceStatus : String
  endpoint : Option DBEndpoint
deriving Repr, DecidableEq

/-- The tool's own database record (`type RDSInstance struct`). -/
structure RDSInstance where
  Identifier : String
  Endpoint : String
  Port : Int
  Engine : String
  Status : String
deriving Repr, DecidableEq

/-- Bool test that `sub` is an initial segment of `l`. -/
def isPrefixList : List Char → List Char → Bool
  | [], _ => true
  | _ :: _, [] => false
  | a :: as, b :: bs => a = b && isPrefixList as bs

/-- Bool test that `sub` occurs contiguously inside `l`
(Go `strings.Contains`). -/
def containsSubList (sub : List Char) : List Char → Bool
  | [] => isPrefixList sub []
  | c :: rest => isPrefixList sub (c :: rest) || containsSubList sub rest

/-- Go `strings.Contains(s, sub)`. -/
def strContainsSub (s sub : String) : Bool :=
  containsSubList sub.data s.data

/-- Go `strings.ToLower` (the engine strings at issue are ASCII, where
Lean's `Char.toLower` agrees with Go). -/
def strToLower (s : String) : String :=
  ⟨s.data.map Char.toLower⟩

/-- Building one `RDSInstance` from an API record: zero values `""` / `0`
stand where the endpoint or its port pointer is nil. -/
def toRDSInstance (db : DBInstance) : RDSInstance :=
  { Identifier := db.dbInstanceIdentifier
    Engine := db.engine
    Status := db.dbInstanceStatus
    Endpoint := match db.endpoint with
      | some e => e.address.getD ""
      | none => ""
    Port := match db.endpoint with
      | some e => e.port.getD 0
      | none => 0 }

/-- The loop of `listRDSInstances` over `result.DBInstances`: skip any
engine whose lowercased name contains `"oracle"`, keep the rest. -/
def processDBInstances : List DBInstance → List RDSInstance
  | [] => []
  | db :: rest =>
      if strContainsSub (strToLower db.engine) "oracle" then
        processDBInstances rest
      else
        toRDSInstance db :: processDBInstances rest

/-- Embeds `listRDSInstances` (both `main.go` variants): a single
`DescribeDBInstances` call with an empty input, so only the first page
of the provider's paginated result set is processed. -/
def listRDSInstances (pages : List (List DBInstance)) : List RDSInstance :=
  processDBInstances (pages.headD [])

/-- The fields of `ssm/types.InstanceInformation` that `part_000`
reads. -/
structure InstanceInformation where
  instanceId : String
  computerName : String
  platformType : String
deriving Repr, DecidableEq

/-- Embeds `getManagedInstances` (`part_000`): a `DescribeInstanceInformation`
paginator loop appending `page.InstanceInformationList` for every page
until `HasMorePages` is false — i.e. the concatenation of all pages. -/
def getManagedInstances : List (List InstanceInformation) → List InstanceInformation
  | [] => []
  | page :: rest => page ++ getManagedInstances rest

/-- Embeds `InstanceInfo` (`part_000`): the display/selection record produced by
the merge step. -/
structure InstanceInfo where
  InstanceID : String
  Name : String
  ComputerName : String
  Platform : String
deriving Repr, DecidableEq

/-- Go map read `tags[id]` on a `map[string]string`: the stored value, or
the zero value `""` when the key is absent.  The map is represented as
an association list of its entries. -/
def tagsLookup (tags : List (String × String)) (id : String) : String :=
  match tags.find? (fun p => p.1 = id) with
  | some p => p.2
  | none => ""

/-- The `ssmInstanceMap` construction of `part_000` `main`: successive
`map[string]ssmtypes.InstanceInformation` writes, a later write for the
same key overwriting an earlier one. -/
def ssmInstanceMapGet (ssmInstances : List InstanceInformation) (id : String) :
    Option InstanceInformation :=
  ssmInstances.foldl
    (fun m inst => fun k => if k = inst.instanceId then some inst else m k)
    (fun _ => none) id

/-- The merge loop of `part_000` `main` (step 6): iterate `instanceIDs`
(the instance ids in discovery order), pull the instance back out of
`ssmInstanceMap`, and pair it with `tags[id]` (empty when missing). -/
def buildDisplayInstances (ssmInstances : List InstanceInformation)
    (tags : List (String × String)) : List InstanceInfo :=
  (ssmInstances.map (fun inst => inst.instanceId)).map (fun id =>
    let inst := (ssmInstanceMapGet ssmInstances id).getD ⟨"", "", ""⟩
    { InstanceID := id
      Name := tagsLookup tags id
      ComputerName := inst.computerName
      Platform := inst.platformType })

/-- Outcome of `handleEC2Mode` / `handleRDSMode` up to the point where the
interactive selector would run: either a fatal `log.Fatalf` exit (process
status 1), a clean `return` after the "none found" message (process status
0), or the selector is shown the discovered list. -/
inductive ModeOutcome (α : Type) where
  | fatalError (msg : String)
  | cleanNoResources (msg : String)
  | selectorShown (records : List α)
deriving Repr, DecidableEq

/-- Embeds `handleEC2Mode` up to the selector: a fetch error is fatal; an empty
list prints "No EC2 instances found" and returns cleanly; otherwise the
selector is invoked on the list. -/
def handleEC2ModeFlow (fetch : Except String (List Instance)) :
    ModeOutcome Instance :=
  match fetch with
  | .error e => .fatalError ("Failed to list instances: " ++ e)
  | .ok instances =>
      if instances.length = 0 then .cleanNoResources "No EC2 instances found"
      else .selectorShown instances

/-- Embeds `handleRDSMode` up to the selector, same shape as `handleEC2ModeFlow`. -/
def handleRDSModeFlow (fetch : Except String (List RDSInstance)) :
    ModeOutcome RDSInstance :=
  match fetch with
  | .error e => .fatalError ("Failed to list RDS instances: " ++ e)
  | .ok instances =>
      if instances.length = 0 then .cleanNoResources "No RDS instances found"
      else .selectorShown instances

/-- Outcome of `part_000` `main` up to the selector.  `selectorShown`
carries the warnings logged so far together with the merged records the
selector is given. -/
inductive P0Outcome where
  | fatalError (msg : String)
  | selectorShown (warnings : List String) (records : List InstanceInfo)
deriving Repr, DecidableEq

/-- Embeds `part_000` `main`, steps 4–7: a `getManagedInstances` error is
`log.Fatalf` (fatal); an empty instance list is `log.Fatal` (also fatal —
not a clean exit); a `getEC2Tags` error is only `log.Printf`-warned and
the run proceeds with the nil (empty) tag map; then the merged list is
handed to the selector. -/
def part000Flow (fetch : Except String (List InstanceInformation))
    (tagsFetch : Except String (List (String × String))) : P0Outcome :=
  match fetch with
  | .error e => .fatalError ("Failed to get SSM instances: " ++ e)
  | .ok ssmInstances =>
      if ssmInstances.length = 0 then
        .fatalError "No SSM-managed instances found (or none are 'Online')."
      else
        match tagsFetch with
        | .error e =>
            .selectorShown ["Warning: Could not fetch EC2 'Name' tags: " ++ e]
              (buildDisplayInstances ssmInstances [])
        | .ok tags =>
            .selectorShown [] (buildDisplayInstances ssmInstances tags)

/-! ## Session handoff payloads -/

/-- Embeds `SessionData` (`main.go`, cobra/survey variant): the struct marshalled
into the bridge payload, with json tags `SessionId` / `StreamUrl` /
`TokenValue`. -/
structure SessionData where
  SessionId : String
  StreamUrl : String
  TokenValue : String
deriving Repr, DecidableEq

/-- The `aws.ToString`-dereferenced fields of `ssm.StartSessionOutput`
that the tool consumes. -/
structure StartSessionOutput where
  SessionId : String
  StreamUrl : String
  TokenValue : String
deriving Repr, DecidableEq

/-- Lowercase hex digit, as emitted by Go `encoding/json` `\u00xx`
escapes. -/
def hexDigitChar (n : Nat) : Char :=
  if n < 10 then Char.ofNat (48 + n) else Char.ofNat (87 + n)

/-- A six-character `\uXXXX` escape sequence for code point `n`. -/
def uEscape (n : Nat) : List Char :=
  ['\\', 'u', hexDigitChar (n / 4096 % 16), hexDigitChar (n / 256 % 16),
   hexDigitChar (n / 16 % 16), hexDigitChar (n % 16)]

/-- Go `encoding/json` string escaping of one character (HTML escaping
on, its default for `json.Marshal`): quote and backslash get a
backslash, newline/return/tab their short forms, other control
characters and `<` `>` `&` and U+2028/U+2029 a `\u` escape, everything
else is copied verbatim. -/
def goEscapeChar (c : Char) : List Char :=
  if c = '"' then ['\\', '"']
  else if c = '\\' then ['\\', '\\']
  else if c = '\n' then ['\\', 'n']
  else if c = '\r' then ['\\', 'r']
  else if c = '\t' then ['\\', 't']
  else if c.toNat < 32 ∨ c = '<' ∨ c = '>' ∨ c = '&'
      ∨ c.toNat = 8232 ∨ c.toNat = 8233 then uEscape c.toNat
  else [c]

def goEscapeList : List Char → List Char
  | [] => []
  | c :: rest => goEscapeChar c ++ goEscapeList rest

/-- Go `encoding/json` escaping of a whole string value. -/
def goJsonEscape (s : String) : String :=
  ⟨goEscapeList s.data⟩

/-- The `json.Marshal(sessionDataStruct)` payload of the cobra/survey
variant: a JSON object holding exactly the three fields of
`SessionData`, values escaped. -/
def marshalSessionData (d : SessionData) : String :=
  "\x7b\"SessionId\":\"" ++ goJsonEscape d.SessionId ++
  "\",\"StreamUrl\":\"" ++ goJsonEscape d.StreamUrl ++
  "\",\"TokenValue\":\"" ++ goJsonEscape d.TokenValue ++ "\"\x7d"

/-- The `fmt.Sprintf` payload of the flag/promptui variant: the same
shape, but the values are spliced in verbatim, with no JSON escaping. -/
def sessionDataSprintf (sessionID streamURL tokenValue : String) : String :=
  "\x7b\"SessionId\":\"" ++ sessionID ++
  "\",\"StreamUrl\":\"" ++ streamURL ++
  "\",\"TokenValue\":\"" ++ tokenValue ++ "\"\x7d"

/-- The `json.Marshal(resp)` payload of `part_000` `startSSMSession`:
the whole `ssm.StartSessionOutput` is marshalled, which in the Go SDK
also carries a `ResultMetadata middleware.Metadata` field (it has no
exported fields, so it serializes as the empty object). -/
def marshalStartSessionResp (r : StartSessionOutput) : String :=
  "\x7b\"SessionId\":\"" ++ goJsonEscape r.SessionId ++
  "\",\"StreamUrl\":\"" ++ goJsonEscape r.StreamUrl ++
  "\",\"TokenValue\":\"" ++ goJsonEscape r.TokenValue ++
  "\",\"ResultMetadata\":\x7b\x7d\x7d"

/-- The argument vector handed to `exec.Command` for the bridge
executable (all variants): payload, region, and the literal verb
`"StartSession"` — exactly three positional arguments. -/
def sessionManagerPluginArgs (payload region : String) : List String :=
  [payload, region, "StartSession"]

/-! ### A JSON reader for the fixed three-field payload shape

The Go code never deserializes the payload itself (the external bridge
does); the following reader is the spec's wire contract — it accepts
precisely a JSON object of the exact shape
`\x7b"SessionId":…,"StreamUrl":…,"TokenValue":…\x7d` with string values
and no extra or missing fields, and recovers the triple. -/

/-- Value of one hex digit character. -/
def hexVal (c : Char) : Option Nat :=
  if '0' ≤ c ∧ c ≤ '9' then some (c.toNat - 48)
  else if 'a' ≤ c ∧ c ≤ 'f' then some (c.toNat - 87)
  else if 'A' ≤ c ∧ c ≤ 'F' then some (c.toNat - 55)
  else none

/-- Short-form JSON escapes. -/
def simpleUnescape (e : Char) : Option Char :=
  if e = '"' then some '"'
  else if e = '\\' then some '\\'
  else if e = '/' then some '/'
  else if e = 'n' then some '\n'
  else if e = 'r' then some '\r'
  else if e = 't' then some '\t'
  else if e = 'b' then some (Char.ofNat 8)
  else if e = 'f' then some (Char.ofNat 12)
  else none

/-- Read the four hex digits of a `\uXXXX` escape. -/
def readUEscape : List Char → Option (Char × List Char)
  | a :: b :: x :: y :: rest =>
    match hexVal a, hexVal b, hexVal x, hexVal y with
    | some ha, some hb, some hx, some hy =>
        some (Char.ofNat (((ha * 16 + hb) * 16 + hx) * 16 + hy), rest)
    | _, _, _, _ => none
  | _ => none

/-- Read the body of an escape sequence (everything after the
backslash). -/
def readEscape : List Char → Option (Char × List Char)
  | [] => none
  | e :: rest =>
    if e = 'u' then readUEscape rest
    else
      match simpleUnescape e with
      | some c => some (c, rest)
      | none => none

/-- Read a JSON string body up to its closing quote, resolving escapes;
returns the decoded characters and the input remaining after the
closing quote.  The fuel argument only forces termination; one unit per
scanned character or escape sequence suffices. -/
def scanFuel : Nat → List Char → Option (List Char × List Char)
  | 0, _ => none
  | _ + 1, [] => none
  | fuel + 1, c :: rest =>
    if c = '"' then some ([], rest)
    else if c = '\\' then
      match readEscape rest with
      | some (c2, rest2) => (scanFuel fuel rest2).map (fun p => (c2 :: p.1, p.2))
      | none => none
    else
      (scanFuel fuel rest).map (fun p => (c :: p.1, p.2))

/-- Runs `scanFuel` with enough fuel for its whole input. -/
def scanJsonString (l : List Char) : Option (List Char × List Char) :=
  scanFuel l.length l

/-- Drop an expected literal from the front of the input, or fail. -/
def stripPre : List Char → List Char → Option (List Char)
  | [], l => some l
  | _ :: _, [] => none
  | p :: ps, c :: cs => if p = c then stripPre ps cs else none

/-- Parse a bridge payload of the exact frozen shape: the three fields
`SessionId`, `StreamUrl`, `TokenValue` in order, string-valued, and
nothing else. -/
def parseSessionPayload (payload : String) : Option SessionData := do
  let r1 ← stripPre ("\x7b\"SessionId\":\"" : String).data payload.data
  let (sid, r2) ← scanJsonString r1
  let r3 ← stripPre (",\"StreamUrl\":\"" : String).data r2
  let (su, r4) ← scanJsonString r3
  let r5 ← stripPre (",\"TokenValue\":\"" : String).data r4
  let (tv, r6) ← scanJsonString r5
  if r6 = ['\x7d'] then some ⟨⟨sid⟩, ⟨su⟩, ⟨tv⟩⟩ else none

/-! ## Interactive selectors -/

namespace V1

end V1

namespace V2

end V2

/-! ## Session launcher -/

/-- Result of `connectToInstance` paired below with the number of
provider `StartSession` calls issued. -/
inductive ConnectResult where
  | preconditionError (msg : String)
  | pluginMissingError (msg : String)
  | sessionError (msg : String)
  | bridged (args : List String)
deriving Repr, DecidableEq

namespace V1

/-- Embeds `connectToInstance` (flag/promptui variant) up to handing the
argument vector to the bridge executable.  The second component counts
`ssmClient.StartSession` calls. -/
def connectToInstance (pluginInstalled : Bool)
    (startSession : Except String StartSessionOutput) (region : String)
    (inst : Instance) : ConnectResult × Nat :=
  if inst.State ≠ "running" then
    (.preconditionError ("instance " ++ inst.ID ++
      " is not in running state (current state: " ++ inst.State ++ ")"), 0)
  else if !pluginInstalled then
    (.pluginMissingError "session-manager-plugin not found. Please install it from: https://docs.aws.amazon.com/systems-manager/latest/userguide/session-manager-working-with-install-plugin.html", 0)
  else
    match startSession with
    | .error e => (.sessionError ("failed to start session: " ++ e), 1)
    | .ok resp =>
        (.bridged (sessionManagerPluginArgs
          (sessionDataSprintf resp.SessionId resp.StreamUrl resp.TokenValue)
          region), 1)

end V1

namespace V2

/-- Embeds `connectToInstance` (cobra/survey variant); identical to `V1` except
that the payload is produced by `json.Marshal` of `SessionData`. -/
def connectToInstance (pluginInstalled : Bool)
    (startSession : Except String StartSessionOutput) (region : String)
    (inst : Instance) : ConnectResult × Nat :=
  if inst.State ≠ "running" then
    (.preconditionError ("instance " ++ inst.ID ++
      " is not in running state (current state: " ++ inst.State ++ ")"), 0)
  else if !pluginInstalled then
    (.pluginMissingError "session-manager-plugin not found. Please install it from: https://docs.aws.amazon.com/systems-manager/latest/userguide/session-manager-working-with-install-plugin.html", 0)
  else
    match startSession with
    | .error e => (.sessionError ("failed to start session: " ++ e), 1)
    | .ok resp =>
        (.bridged (sessionManagerPluginArgs
          (marshalSessionData ⟨resp.SessionId, resp.StreamUrl, resp.TokenValue⟩)
          region), 1)

end V2

/-! ## Credential minter -/

inductive MintResult where
  | endpointError (msg : String)
  | tokenError (msg : String)
  | tokenIssued (token : String)
deriving Repr, DecidableEq

/-- Trace of one `generateRDSAuthToken` run: the warnings printed, the
`host:port` targets for which `auth.BuildAuthToken` was invoked, and
the outcome. -/
structure MintTrace where
  warnings : List String
  requests : List String
  result : MintResult
deriving Repr, DecidableEq

/-- Embeds `generateRDSAuthToken` (`main.go`, both variants): a non-`available`
status only prints a warning; an empty endpoint address returns an
error before any token request; otherwise `auth.BuildAuthToken` is
called once on `fmt.Sprintf("%s:%d", …)`. -/
def generateRDSAuthToken
    (buildAuthToken : String → String → String → Except String String)
    (region : String) (inst : RDSInstance) (username : String) : MintTrace :=
  let warnings :=
    if inst.Status ≠ "available" then
      ["Warning: RDS instance " ++ inst.Identifier ++
        " is not in 'available' state (current state: " ++ inst.Status ++ ")"]
    else []
  if inst.Endpoint = "" then
    { warnings := warnings
      requests := []
      result := .endpointError ("RDS instance " ++ inst.Identifier ++
        " does not have an endpoint") }
  else
    let endpoint := inst.Endpoint ++ ":" ++ toString inst.Port
    match buildAuthToken endpoint region username with
    | .error e =>
        { warnings := warnings
          requests := [endpoint]
          result := .tokenError ("failed to generate auth token: " ++ e) }
    | .ok tok =>
        { warnings := warnings
          requests := [endpoint]
          result := .tokenIssued tok }

/-! ## Concrete fixtures -/

/-- Page one of a two-page `DescribeInstances` result set. -/
def ec2PageOne : List Reservation :=
  [⟨[⟨"i-aaa", "t2.micro", "running", [], none, none⟩]⟩]

/-- Page two of the same result set: a running instance the single-call
fetcher never sees. -/
def ec2PageTwo : List Reservation :=
  [⟨[⟨"i-bbb", "t3.large", "running", [], none, none⟩]⟩]

/-- Page one of a two-page `DescribeDBInstances` result set. -/
def rdsPageOne : List DBInstance :=
  [⟨"db-one", "postgres", "available", some ⟨some "h1", some 5432⟩⟩]

/-- Page two of the same result set. -/
def rdsPageTwo : List DBInstance :=
  [⟨"db-two", "mysql", "available", some ⟨some "h2", some 3306⟩⟩]

/-- Pages of a two-page `DescribeInstanceInformation` result set. -/
def ssmPageOne : List InstanceInformation := [⟨"i-aaa", "host-a", "Linux"⟩]

def ssmPageTwo : List InstanceInformation := [⟨"i-bbb", "host-b", "Linux"⟩]

/-- A running (hence non-terminal) API instance placed on page two. -/
def iRun2 : EC2ApiInstance := ⟨"i-run2", "t2.nano", "running", [], none, none⟩

/-- An API instance in state `"shutting-down"`: a terminal lifecycle
state in the sense of the spec's glossary (it can only proceed to
`"terminated"`, never back to connectable), but not the one literal
state the code filters. -/
def iShut : EC2ApiInstance :=
  ⟨"i-shut", "t2.micro", "shutting-down", [], none, none⟩

/-- First page mixing running / terminated / shutting-down / stopped
states. -/
def ec2PageA : List Reservation :=
  [⟨[⟨"i-run1", "t2.micro", "running", [⟨"Name", "web"⟩], some "10.0.0.1", none⟩,
     ⟨"i-term", "t2.micro", "terminated", [], none, none⟩,
     iShut,
     ⟨"i-stop", "t2.small", "stopped", [], none, none⟩]⟩]

/-- Second page holding only `iRun2`. -/
def ec2PageB : List Reservation := [⟨[iRun2]⟩]

/-- A database instance that is not `available` but has an endpoint. -/
def mintInstBackingUp : RDSInstance :=
  ⟨"db-1", "db.example.com", 5432, "postgres", "backing-up"⟩

/-- A database instance with no endpoint address. -/
def mintInstNoEndpoint : RDSInstance := ⟨"db-2", "", 0, "mysql", "available"⟩

/-- A database instance with an endpoint address but port zero. -/
def mintInstPortZero : RDSInstance :=
  ⟨"db-3", "db3.example.com", 0, "postgres", "available"⟩

/-! ## Helper lemmas -/

lemma stripPre_append (p l : List Char) : stripPre p (p ++ l) = some l := by
  induction p with
  | nil => rfl
  | cons c cs ih => simp [stripPre, ih]

lemma hexVal_hexDigitChar (n : Nat) (h : n < 16) :
    hexVal (hexDigitChar n) = some n := by
  interval_cases n <;> decide

lemma toNat_lt_of_escaped (c : Char)
    (h : c.toNat < 32 ∨ c = '<' ∨ c = '>' ∨ c = '&'
      ∨ c.toNat = 8232 ∨ c.toNat = 8233) : c.toNat < 65536 := by
  rcases h with h | h | h | h | h | h
  · omega
  · subst h; decide
  · subst h; decide
  · subst h; decide
  · omega
  · omega

lemma scanFuel_goEscapeChar (c : Char) (f : Nat) (l : List Char) :
    scanFuel (f + 1) (goEscapeChar c ++ l)
      = (scanFuel f l).map (fun p => (c :: p.1, p.2)) := by
  unfold goEscapeChar
  split_ifs with h1 h2 h3 h4 h5 h6
  · subst h1
    rw [show ((['\\', '"'] : List Char) ++ l) = '\\' :: '"' :: l from rfl, scanFuel]
    simp [readEscape, simpleUnescape]
  · subst h2
    rw [show ((['\\', '\\'] : List Char) ++ l) = '\\' :: '\\' :: l from rfl, scanFuel]
    simp [readEscape, simpleUnescape]
  · subst h3
    rw [show ((['\\', 'n'] : List Char) ++ l) = '\\' :: 'n' :: l from rfl, scanFuel]
    simp [readEscape, simpleUnescape]
  · subst h4
    rw [show ((['\\', 'r'] : List Char) ++ l) = '\\' :: 'r' :: l from rfl, scanFuel]
    simp [readEscape, simpleUnescape]
  · subst h5
    rw [show ((['\\', 't'] : List Char) ++ l) = '\\' :: 't' :: l from rfl, scanFuel]
    simp [readEscape, simpleUnescape]
  · have hlt := toNat_lt_of_escaped c h6
    have d1 := hexVal_hexDigitChar (c.toNat / 4096 % 16) (Nat.mod_lt _ (by norm_num))
    have d2 := hexVal_hexDigitChar (c.toNat / 256 % 16) (Nat.mod_lt _ (by norm_num))
    have d3 := hexVal_hexDigitChar (c.toNat / 16 % 16) (Nat.mod_lt _ (by norm_num))
    have d4 := hexVal_hexDigitChar (c.toNat % 16) (Nat.mod_lt _ (by norm_num))
    have harith : (((c.toNat / 4096 % 16) * 16 + c.toNat / 256 % 16) * 16
        + c.toNat / 16 % 16) * 16 + c.toNat % 16 = c.toNat := by omega
    rw [show (uEscape c.toNat ++ l)
        = '\\' :: 'u' :: hexDigitChar (c.toNat / 4096 % 16)
          :: hexDigitChar (c.toNat / 256 % 16) :: hexDigitChar (c.toNat / 16 % 16)
          :: hexDigitChar (c.toNat % 16) :: l from rfl, scanFuel]
    simp [readEscape, readUEscape, d1, d2, d3, d4, harith, Char.ofNat_toNat]
  · rw [show (([c] : List Char) ++ l) = c :: l from rfl, scanFuel, if_neg h1, if_neg h2]

lemma scanFuel_goEscapeList :
    ∀ (s : List Char) (f : Nat) (rest : List Char), s.length < f →
      scanFuel f (goEscapeList s ++ '"' :: rest) = some (s, rest)
  | [], f, rest, h => by
      obtain ⟨f', rfl⟩ : ∃ f', f = f' + 1 := ⟨f - 1, by omega⟩
      rw [goEscapeList, List.nil_append, scanFuel]
      simp
  | c :: cs, f, rest, h => by
      obtain ⟨f', rfl⟩ : ∃ f', f = f' + 1 := ⟨f - 1, by omega⟩
      have hcs : cs.length < f' := by
        simp only [List.length_cons] at h
        omega
      rw [goEscapeList, List.append_assoc, scanFuel_goEscapeChar,
        scanFuel_goEscapeList cs f' rest hcs]
      rfl

lemma goEscapeChar_length_pos (c : Char) : 1 ≤ (goEscapeChar c).length := by
  unfold goEscapeChar
  split_ifs <;> simp [uEscape]

lemma length_le_goEscapeList (s : List Char) : s.length ≤ (goEscapeList s).length := by
  induction s with
  | nil => simp [goEscapeList]
  | cons c cs ih =>
      have hc := goEscapeChar_length_pos c
      simp only [goEscapeList, List.length_append, List.length_cons]
      omega

lemma scan_goEscapeList (s rest : List Char) :
    scanJsonString (goEscapeList s ++ '"' :: rest) = some (s, rest) := by
  have h1 := length_le_goEscapeList s
  unfold scanJsonString
  apply scanFuel_goEscapeList
  simp only [List.length_append, List.length_cons]
  omega

lemma parse_marshalSessionData (d : SessionData) :
    parseSessionPayload (marshalSessionData d) = some d := by
  obtain ⟨sid, su, tv⟩ := d
  have hdata : (marshalSessionData ⟨sid, su, tv⟩).data
      = ("\x7b\"SessionId\":\"" : String).data
        ++ (goEscapeList sid.data
        ++ '"' :: ((",\"StreamUrl\":\"" : String).data
        ++ (goEscapeList su.data
        ++ '"' :: ((",\"TokenValue\":\"" : String).data
        ++ (goEscapeList tv.data ++ '"' :: ['\x7d']))))) := by
    simp only [marshalSessionData, String.data_append, List.append_assoc]
    rfl
  simp [parseSessionPayload, hdata, stripPre, scan_goEscapeList]

lemma processReservations_state (rs : List Reservation) :
    ∀ inst ∈ processReservations rs, inst.State ≠ "terminated" := by
  induction rs with
  | nil => simp [processReservations]
  | cons r rest ih =>
      intro inst hmem
      simp only [processReservations, List.mem_append, List.mem_map,
        List.mem_filter] at hmem
      rcases hmem with ⟨i, ⟨_, hstate⟩, rfl⟩ | h
      · simpa [toInstance] using hstate
      · exact ih inst h

lemma processReservations_mem {rs : List Reservation} {r : Reservation}
    {i : EC2ApiInstance} (hr : r ∈ rs) (hi : i ∈ r.instances)
    (hstate : i.stateName ≠ "terminated") :
    toInstance i ∈ processReservations rs := by
  induction rs with
  | nil => cases hr
  | cons r0 rest ih =>
      simp only [processReservations, List.mem_append]
      rcases List.mem_cons.mp hr with rfl | hr'
      · exact Or.inl (List.mem_map_of_mem _
          (List.mem_filter.mpr ⟨hi, by simpa using hstate⟩))
      · exact Or.inr (ih hr')

lemma processReservations_eq (rs : List Reservation) :
    processReservations rs
      = ((rs.flatMap (fun r => r.instances)).filter
          (fun i => i.stateName ≠ "terminated")).map toInstance := by
  induction rs with
  | nil => rfl
  | cons r rest ih =>
      simp only [processReservations, List.flatMap_cons, List.filter_append,
        List.map_append, ih]

/-- C1: the claim says every resource-fetch operation consumes all pages
of the provider's paginated result set.  The code falsifies this for two
of the three fetchers: on a two-page input, `listInstances` and
`listRDSInstances` (single `Describe…` call, no paginator) return only
the first page's records and drop the running EC2 instance `i-bbb` and
the postgres database `db-two` sitting on page two, while `part_000`'s
`getManagedInstances` does concatenate every page. -/
theorem c1_fetchers_truncate_paginated_input :
    listInstances [ec2PageOne, ec2PageTwo]
        = [⟨"i-aaa", "", "", "", "running", "t2.micro"⟩]
      ∧ toInstance ⟨"i-bbb", "t3.large", "running", [], none, none⟩
          ∉ listInstances [ec2PageOne, ec2PageTwo]
      ∧ listRDSInstances [rdsPageOne, rdsPageTwo]
          = [⟨"db-one", "h1", 5432, "postgres", "available"⟩]
      ∧ toRDSInstance ⟨"db-two", "mysql", "available", some ⟨some "h2", some 3306⟩⟩
          ∉ listRDSInstances [rdsPageOne, rdsPageTwo]
      ∧ getManagedInstances [ssmPageOne, ssmPageTwo]
          = [⟨"i-aaa", "host-a", "Linux"⟩, ⟨"i-bbb", "host-b", "Linux"⟩] := by
  decide

/-- C2 counterexample: the `part_000` variant marshals the whole
`StartSession` response, whose serialization carries an extra
`ResultMetadata` field, so the payload does not deserialize back to
exactly the triple; and the promptui variant's unescaped `Sprintf`
payload maps two different triples to the same string, so no
deserializer can recover "exactly that triple" from it. -/
theorem c2_payload_not_exact_triple :
    parseSessionPayload (marshalStartSessionResp ⟨"s-1", "https://x", "t-1"⟩) = none
      ∧ sessionDataSprintf "A" "B\",\"TokenValue\":\"C" "D"
          = sessionDataSprintf "A" "B" "C\",\"TokenValue\":\"D"
      ∧ ("B\",\"TokenValue\":\"C" : String) ≠ "B" := by
  decide

/-- C2 (amended): for the variant that builds the payload with
`json.Marshal` of the `SessionData` struct, the serialized first
argument deserializes back to exactly the triple (no extra, no missing
fields); and in every variant the bridge executable is invoked with
exactly three positional arguments — the payload, the region, and the
fixed literal verb `"StartSession"`. -/
theorem c2_marshalled_payload_roundtrip_and_args (d : SessionData)
    (payload region : String) :
    parseSessionPayload (marshalSessionData d) = some d
      ∧ sessionManagerPluginArgs payload region = [payload, region, "StartSession"]
      ∧ (sessionManagerPluginArgs payload region).length = 3 :=
  ⟨parse_marshalSessionData d, rfl, rfl⟩

/-- C3 counterexample: the claim fails in both directions on one
concrete two-page input.  `"shutting-down"` is a terminal lifecycle
state under the claim's own definition (a shutting-down instance can
only proceed to `"terminated"` and can never become connectable again
without re-provisioning), yet the fetcher filters only the literal
state `"terminated"` and keeps `i-shut` in the candidate list; and the
running (non-terminal) instance `iRun2` on page two of the input pages
is not retained, because only the first page is consumed. -/
theorem c3_terminal_claim_fails_both_ways :
    iShut.stateName = "shutting-down"
      ∧ toInstance iShut ∈ listInstances [ec2PageA, ec2PageB]
      ∧ iRun2.stateName = "running"
      ∧ List.getD [ec2PageA, ec2PageB] 1 [] = ec2PageB
      ∧ iRun2 ∈ (ec2PageB.headD ⟨[]⟩).instances
      ∧ toInstance iRun2 ∉ listInstances [ec2PageA, ec2PageB] := by
  decide

/-- C3 (amended): the fetcher's filter excludes exactly the literal
lifecycle state `"terminated"`: the compute candidate list is, in
order, the image of the non-`"terminated"` instances of the page the
fetcher consumes (the first — later pages are dropped, see C1).  Hence
no terminated instance ever appears, while instances in every other
state — including the likewise-terminal `"shutting-down"` — are
retained in their discovery order. -/
theorem c3_filter_exactly_terminated_first_page_ordered
    (pages : List (List Reservation)) :
    listInstances pages
        = (((pages.headD []).flatMap (fun r => r.instances)).filter
            (fun i => i.stateName ≠ "terminated")).map toInstance
      ∧ (∀ inst ∈ listInstances pages, inst.State ≠ "terminated") :=
  ⟨processReservations_eq (pages.headD []),
   processReservations_state (pages.headD [])⟩

/-- C3 witness: the amended theorem instantiated on the concrete
two-page fixture — a record retained in the candidate list is not
terminated. -/
theorem c3_filter_exactly_terminated_witness :
    (toInstance ⟨"i-stop", "t2.small", "stopped", [], none, none⟩).State
      ≠ "terminated" :=
  (c3_filter_exactly_terminated_first_page_ordered [ec2PageA, ec2PageB]).2
    (toInstance ⟨"i-stop", "t2.small", "stopped", [], none, none⟩) (by decide)

/-- C4: the merge of `part_000` `main` is total and order-preserving —
the output has the same length as the discovered resource list, the
record at every index carries the identifier of the resource at the
same index, and its display name is the mapping's entry for that
identifier, or the empty string when absent. -/
theorem c4_merge_total_order_preserving
    (ssmInstances : List InstanceInformation) (tags : List (String × String)) :
    (buildDisplayInstances ssmInstances tags).length = ssmInstances.length
      ∧ (∀ i : Nat,
          (buildDisplayInstances ssmInstances tags)[i]?.map InstanceInfo.InstanceID
            = ssmInstances[i]?.map InstanceInformation.instanceId)
      ∧ (∀ i : Nat,
          (buildDisplayInstances ssmInstances tags)[i]?.map InstanceInfo.Name
            = ssmInstances[i]?.map (fun inst =>
                match tags.find? (fun p => p.1 = inst.instanceId) with
                | some p => p.2
                | none => "")) := by
  refine ⟨?_, ?_, ?_⟩
  · simp [buildDisplayInstances]
  · intro i
    simp [buildDisplayInstances, List.getElem?_map, Option.map_map]
    rfl
  · intro i
    simp [buildDisplayInstances, List.getElem?_map, Option.map_map, tagsLookup]
    rfl

/-- C5 counterexample: in the `part_000` variant an empty discovery
result is `log.Fatal` — the process terminates with a non-zero status
and a message, not a clean success exit. -/
theorem c5_part000_empty_discovery_fatal :
    part000Flow (.ok []) (.ok [])
      = .fatalError "No SSM-managed instances found (or none are 'Online')." := by
  rfl

/-- C5 (amended): an empty discovery result never reaches the selector
in any variant; the `main.go` modes print a message and return with
success status, while the `part_000` variant exits fatally with a
message. -/
theorem c5_empty_discovery_shortcircuits
    (tagsFetch : Except String (List (String × String))) :
    handleEC2ModeFlow (.ok []) = .cleanNoResources "No EC2 instances found"
      ∧ handleRDSModeFlow (.ok []) = .cleanNoResources "No RDS instances found"
      ∧ part000Flow (.ok []) tagsFetch
          = .fatalError "No SSM-managed instances found (or none are 'Online')." :=
  ⟨rfl, rfl, rfl⟩

/-- C6: when the selected instance is not in the single ready-to-connect
state `"running"`, both `connectToInstance` variants fail immediately
with a precondition error whose message names the actual state, and the
provider's `StartSession` is invoked zero times. -/
theorem c6_not_running_fails_fast (pluginInstalled : Bool)
    (startSession : Except String StartSessionOutput) (region : String)
    (inst : Instance) (h : inst.State ≠ "running") :
    V1.connectToInstance pluginInstalled startSession region inst
        = (.preconditionError ("instance " ++ inst.ID ++
            " is not in running state (current state: " ++ inst.State ++ ")"), 0)
      ∧ V2.connectToInstance pluginInstalled startSession region inst
        = (.preconditionError ("instance " ++ inst.ID ++
            " is not in running state (current state: " ++ inst.State ++ ")"), 0) := by
  constructor
  · simp [V1.connectToInstance, h]
  · simp [V2.connectToInstance, h]

/-- C6 witness: a stopped instance is rejected before any session-start
call, in both variants. -/
theorem c6_not_running_fails_fast_witness :
    V1.connectToInstance true (.ok ⟨"s", "u", "t"⟩) "us-east-1"
        ⟨"i-1", "web", "10.0.0.1", "", "stopped", "t2.micro"⟩
      = (.preconditionError
          "instance i-1 is not in running state (current state: stopped)", 0)
      ∧ V2.connectToInstance true (.ok ⟨"s", "u", "t"⟩) "us-east-1"
        ⟨"i-1", "web", "10.0.0.1", "", "stopped", "t2.micro"⟩
      = (.preconditionError
          "instance i-1 is not in running state (current state: stopped)", 0) :=
  c6_not_running_fails_fast true (.ok ⟨"s", "u", "t"⟩) "us-east-1"
    ⟨"i-1", "web", "10.0.0.1", "", "stopped", "t2.micro"⟩ (by decide)

/-- C7: a tag-enrichment failure never aborts the `part_000` run — a
warning is logged and the selector receives the merged records built
from the empty mapping, so every display name is empty; a failure of
the primary instance fetch, by contrast, is fatal. -/
theorem c7_enrichment_failure_degrades
    (ssmInstances : List InstanceInformation) (e e2 : String)
    (hne : ssmInstances ≠ []) :
    part000Flow (.ok ssmInstances) (.error e)
        = .selectorShown ["Warning: Could not fetch EC2 'Name' tags: " ++ e]
            (buildDisplayInstances ssmInstances [])
      ∧ (∀ rec ∈ buildDisplayInstances ssmInstances [], rec.Name = "")
      ∧ part000Flow (.error e2) (.error e)
          = .fatalError ("Failed to get SSM instances: " ++ e2) := by
  refine ⟨?_, ?_, rfl⟩
  · simp [part000Flow, List.length_eq_zero, hne]
  · intro rec hmem
    simp only [buildDisplayInstances, List.map_map, List.mem_map] at hmem
    obtain ⟨inst, -, rfl⟩ := hmem
    rfl

/-- C7 witness: with one discovered instance and a failing tag fetch,
the run proceeds to the selector with an empty display name. -/
theorem c7_enrichment_failure_degrades_witness :
    part000Flow (.ok [⟨"i-x", "h", "Linux"⟩]) (.error "boom")
      = .selectorShown ["Warning: Could not fetch EC2 'Name' tags: boom"]
          [⟨"i-x", "", "h", "Linux"⟩] :=
  ((c7_enrichment_failure_degrades [⟨"i-x", "h", "Linux"⟩] "boom" "x"
      (by decide)).1).trans (by decide)

/-- C9: the credential minter's precondition checks are asymmetric — a
status other than `"available"` only emits a warning and the token is
still requested (for the `host:port` target) and output, while an empty
endpoint address is an error issued before any token request. -/
theorem c9_minter_asymmetry
    (buildAuthToken : String → String → String → Except String String)
    (region : String) (inst : RDSInstance) (username : String) :
    (inst.Status ≠ "available" →
        (generateRDSAuthToken buildAuthToken region inst username).warnings
          = ["Warning: RDS instance " ++ inst.Identifier ++
             " is not in 'available' state (current state: " ++ inst.Status ++ ")"])
      ∧ (inst.Status ≠ "available" → inst.Endpoint ≠ "" →
          (generateRDSAuthToken buildAuthToken region inst username).requests
            = [inst.Endpoint ++ ":" ++ toString inst.Port])
      ∧ (∀ tok, inst.Endpoint ≠ "" →
          buildAuthToken (inst.Endpoint ++ ":" ++ toString inst.Port) region username
              = .ok tok →
          (generateRDSAuthToken buildAuthToken region inst username).result
            = .tokenIssued tok)
      ∧ (inst.Endpoint = "" →
          (generateRDSAuthToken buildAuthToken region inst username).result
              = .endpointError ("RDS instance " ++ inst.Identifier ++
                  " does not have an endpoint")
            ∧ (generateRDSAuthToken buildAuthToken region inst username).requests
              = []) := by
  refine ⟨?_, ?_, ?_, ?_⟩
  · intro hS
    simp only [generateRDSAuthToken, if_pos hS]
    split
    · rfl
    · split <;> rfl
  · intro hS hE
    simp only [generateRDSAuthToken, if_neg hE]
    split <;> rfl
  · intro tok hE hok
    simp only [generateRDSAuthToken, if_neg hE, hok]
  · intro hE
    simp [generateRDSAuthToken, hE]

/-- C9 witness: a backing-up instance still gets a warning plus a token,
and an endpoint-less instance gets an error with zero token requests. -/
theorem c9_minter_asymmetry_witness :
    (generateRDSAuthToken (fun _ _ _ => .ok "TOK") "ap-southeast-2"
        mintInstBackingUp "admin").warnings
      = ["Warning: RDS instance db-1 is not in 'available' state (current state: backing-up)"]
      ∧ (generateRDSAuthToken (fun _ _ _ => .ok "TOK") "ap-southeast-2"
          mintInstBackingUp "admin").result = .tokenIssued "TOK"
      ∧ (generateRDSAuthToken (fun _ _ _ => .ok "TOK") "ap-southeast-2"
          mintInstNoEndpoint "admin").requests = [] := by
  refine ⟨?_, ?_, ?_⟩
  · exact ((c9_minter_asymmetry (fun _ _ _ => .ok "TOK") "ap-southeast-2"
      mintInstBackingUp "admin").1 (by decide)).trans (by decide)
  · exact (c9_minter_asymmetry (fun _ _ _ => .ok "TOK") "ap-southeast-2"
      mintInstBackingUp "admin").2.2.1 "TOK" (by decide) rfl
  · exact ((c9_minter_asymmetry (fun _ _ _ => .ok "TOK") "ap-southeast-2"
      mintInstNoEndpoint "admin").2.2.2 (by decide)).2

/-- C10: a database resource with a non-empty endpoint address but port
zero is NOT treated as lacking an endpoint — the minter proceeds to
request a token for the combined target `host:0` and never takes the
missing-endpoint error branch. -/
theorem c10_port_zero_still_requests (buildAuthToken : String → String →
      String → Except String String)
    (region : String) (inst : RDSInstance) (username : String)
    (hE : inst.Endpoint ≠ "") (hP : inst.Port = 0) :
    (generateRDSAuthToken buildAuthToken region inst username).requests
        = [inst.Endpoint ++ ":" ++ "0"]
      ∧ ∀ msg, (generateRDSAuthToken buildAuthToken region inst username).result
          ≠ .endpointError msg := by
  constructor
  · simp only [generateRDSAuthToken, if_neg hE, hP]
    split <;> rfl
  · intro msg
    simp only [generateRDSAuthToken, if_neg hE]
    split <;> simp

/-- C10 witness: the minter requests a token for `db3.example.com:0`. -/
theorem c10_port_zero_still_requests_witness :
    (generateRDSAuthToken (fun _ _ _ => .ok "TOK") "r1"
        mintInstPortZero "admin").requests = ["db3.example.com:0"] :=
  ((c10_port_zero_still_requests (fun _ _ _ => .ok "TOK") "r1" mintInstPortZero
      "admin" (by decide) (by decide)).1).trans (by decide)
